import Mathlib

/-!
Verification of the contract financial engine of btp-connect.

Shallow embedding of:
- backend/src/routes/marches.ts (progress certificates "situations",
  approval workflow, avenants, DPGF import commit),
- backend/src/routes/health.ts (DELETE /situations/:id),
- backend/src/services/dpgf-import.ts (DPGF grid parsing and column
  auto-detection),
- the appels d'offres routes (comparatif scoring).

Monetary amounts and quantities are modelled as rationals; the recap
equations the routes compute are exact arithmetic identities over the
values the code manipulates.
-/

/-- Certificate (situation) statuses as used by the routes. -/
inductive StatutSituation
  | BROUILLON
  | SOUMISE
  | VALIDEE_MOE
  | VALIDEE_MOA
  | PAYEE
deriving DecidableEq, Repr

/-- The two validation stages (MOE = works supervisor, MOA = owner). -/
inductive TypeValidation
  | MOE
  | MOA
deriving DecidableEq, Repr

/-- Outcome recorded in a validationSituation row. -/
inductive StatutValidation
  | VALIDE
  | REFUSE
deriving DecidableEq, Repr

/-- A bid-schedule line (ligneDPGF) of a contract. -/
structure LigneDPGF where
  id : Nat
  numero : String
  designation : String
  unite : String
  quantite : ℚ
  prixUnitaireHT : ℚ
  montantHT : ℚ
deriving DecidableEq, Repr

/-- A certificate line-entry (ligneSituation). -/
structure LigneSituation where
  ligneDPGFId : Nat
  quantiteMois : ℚ
  quantiteCumul : ℚ
  montantMois : ℚ
  montantCumul : ℚ
deriving DecidableEq, Repr

/-- An appended validation record (validationSituation). -/
structure ValidationSituation where
  type : TypeValidation
  statut : StatutValidation
  commentaire : Option String
  userId : Nat
deriving DecidableEq, Repr

/-- A progress certificate (situation) with its recap fields. -/
structure Situation where
  numero : Nat
  statut : StatutSituation
  montantTravaux : ℚ
  montantCumule : ℚ
  retenueGarantie : ℚ
  acomptePrecedent : ℚ
  montantNetHT : ℚ
  montantTTC : ℚ
  lignes : List LigneSituation
  validations : List ValidationSituation
deriving DecidableEq, Repr

/-- The part of a contract (marché) the certificate engine reads:
retention rate, amounts, bid-schedule lines, and the contract's other
certificates. -/
structure Marche where
  tauxRG : ℚ
  montantInitialHT : ℚ
  montantActuelHT : ℚ
  lignesDPGF : List LigneDPGF
  situations : List Situation
deriving Repr

/-- Earlier non-draft certificates of the same contract, as queried by
PUT /situations/:id/lignes: numero < the current one and statut ≠ BROUILLON. -/
def situationsPrecedentes (sits : List Situation) (numero : Nat) : List Situation :=
  sits.filter (fun s => decide (s.numero < numero) && decide (s.statut ≠ .BROUILLON))

/-- Per-line prior cumulative quantity. The route accumulates
cumulsParLigne[ligneDPGFId] += quantiteMois over the lines of every
earlier non-draft certificate; that record is modelled as the sum of the
matching entries (missing key = 0). -/
def cumulsParLigne (prev : List Situation) (lid : Nat) : ℚ :=
  (prev.map (fun s =>
    ((s.lignes.filter (fun l => l.ligneDPGFId == lid)).map (fun l => l.quantiteMois)).sum)).sum

/-- The loop body of PUT /situations/:id/lignes: for each submitted
(ligneDPGFId, quantiteMois) pair, look the line up in the contract's
DPGF (skipping unknown ids, the continue branch) and build the new
ligneSituation. -/
def processLignes (lignesDPGF : List LigneDPGF) (cumul : Nat → ℚ) :
    List (Nat × ℚ) → List LigneSituation
  | [] => []
  | (lid, q) :: rest =>
    match lignesDPGF.find? (fun l => l.id == lid) with
    | none => processLignes lignesDPGF cumul rest
    | some lm =>
      { ligneDPGFId := lid
        quantiteMois := q
        quantiteCumul := cumul lid + q
        montantMois := q * lm.prixUnitaireHT
        montantCumul := (cumul lid + q) * lm.prixUnitaireHT } ::
        processLignes lignesDPGF cumul rest

/-- PUT /situations/:id/lignes. Rejects a non-draft certificate, rewrites
its line-entries from scratch and recomputes the recap. The running
totals the route accumulates in its loop are the sums over the produced
entries; TVA is the hardcoded 20% default (montantTTC = montantNetHT × 1.20). -/
def saveLignesSituation (m : Marche) (s : Situation) (pairs : List (Nat × ℚ)) :
    Except String Situation :=
  if s.statut ≠ .BROUILLON then .error "Situation non modifiable"
  else
    let prev := situationsPrecedentes m.situations s.numero
    let nouvelles := processLignes m.lignesDPGF (cumulsParLigne prev) pairs
    let montantTravaux := (nouvelles.map (fun l => l.montantMois)).sum
    let montantCumul := (nouvelles.map (fun l => l.montantCumul)).sum
    let retenueGarantie := montantCumul * (m.tauxRG / 100)
    let acomptePrecedent := (prev.map (fun s => s.montantTravaux)).sum
    let montantNetHT := montantCumul - retenueGarantie - acomptePrecedent
    let montantTTC := montantNetHT * (1.20 : ℚ)
    .ok { s with
      lignes := nouvelles
      montantTravaux := montantTravaux
      montantCumule := montantCumul
      retenueGarantie := retenueGarantie
      acomptePrecedent := acomptePrecedent
      montantNetHT := montantNetHT
      montantTTC := montantTTC }

/-- POST /situations/:id/soumettre: only from BROUILLON. -/
def soumettre (s : Situation) : Except String Situation :=
  if s.statut ≠ .BROUILLON then .error "Situation déjà soumise"
  else .ok { s with statut := .SOUMISE }

/-- POST /situations/:id/valider: MOE requires SOUMISE, MOA requires
VALIDEE_MOE; on success a VALIDE record is appended and the status
advances. -/
def valider (s : Situation) (ty : TypeValidation) (userId : Nat)
    (commentaire : Option String) : Except String Situation :=
  if ty = .MOE ∧ s.statut ≠ .SOUMISE then
    .error "La situation doit être soumise pour validation MOE"
  else if ty = .MOA ∧ s.statut ≠ .VALIDEE_MOE then
    .error "La situation doit être validée MOE avant validation MOA"
  else
    let nouveauStatut := if ty = .MOE then StatutSituation.VALIDEE_MOE else .VALIDEE_MOA
    .ok { s with
      statut := nouveauStatut
      validations := s.validations ++
        [{ type := ty, statut := .VALIDE, commentaire := commentaire, userId := userId }] }

/-- POST /situations/:id/refuser: requires a motif (absent or empty is
falsy and rejected), appends a REFUSE record with the motif as comment
and puts the certificate back to BROUILLON. No status guard exists. -/
def refuser (s : Situation) (ty : TypeValidation) (userId : Nat)
    (motif : Option String) : Except String Situation :=
  match motif with
  | none => .error "Motif de refus requis"
  | some m =>
    if m = "" then .error "Motif de refus requis"
    else .ok { s with
      statut := .BROUILLON
      validations := s.validations ++
        [{ type := ty, statut := .REFUSE, commentaire := some m, userId := userId }] }

/-- Whether an Except result is a success. -/
def isOkE {α : Type} : Except String α → Bool
  | .ok _ => true
  | .error _ => false

/-!
Certificate sequence numbers. POST /marches/:id/situations fetches the
contract's situations ordered by numero descending (take 1) and assigns
dernierNumero + 1; DELETE /situations/:id (health.ts) simply deletes the
row. The per-contract numbering state is the multiset of live numeros.
-/

/-- The next sequence number: previous maximum (default 0) plus one. -/
def nextNumero (numeros : List Nat) : Nat :=
  numeros.foldl max 0 + 1

/-- Operations touching a contract's certificate numbering. -/
inductive SitOp
  | createSit
  | deleteSit (numero : Nat)
deriving DecidableEq, Repr

/-- Effect of one operation on the list of live certificate numbers. -/
def applySitOp (st : List Nat) : SitOp → List Nat
  | .createSit => st ++ [nextNumero st]
  | .deleteSit n => st.erase n

/-- The sequence numbers handed out by the create operations of a trace,
in creation order. -/
def assignedNumeros : List Nat → List SitOp → List Nat
  | _, [] => []
  | st, .createSit :: ops => nextNumero st :: assignedNumeros (applySitOp st .createSit) ops
  | st, .deleteSit n :: ops => assignedNumeros (applySitOp st (.deleteSit n)) ops

/-- Whether an operation is a creation. -/
def SitOp.isCreate : SitOp → Bool
  | .createSit => true
  | .deleteSit _ => false

/-!
Contract amount vs avenants. POST /marches/:id/avenants appends the
avenant then sets montantActuelHT := montantInitialHT + Σ montantHT over
all of the contract's avenants; POST /marches/:id/upload-dpgf (and
import-dpgf) replaces the DPGF lines and sets BOTH montantInitialHT and
montantActuelHT to the imported total, leaving the avenants rows in
place.
-/

/-- The amount-relevant state of a contract. -/
structure MarcheFin where
  montantInitialHT : ℚ
  montantActuelHT : ℚ
  avenants : List ℚ
deriving DecidableEq, Repr

/-- Amount-changing operations on a contract. -/
inductive MarcheOp
  | importDPGF (totalHT : ℚ)
  | addAvenant (montantHT : ℚ)
deriving DecidableEq, Repr

/-- Whether the operation is a DPGF import. -/
def MarcheOp.isImport : MarcheOp → Bool
  | .importDPGF _ => true
  | .addAvenant _ => false

/-- Whether the operation is an avenant creation. -/
def MarcheOp.isAvenant : MarcheOp → Bool
  | .importDPGF _ => false
  | .addAvenant _ => true

/-- Effect of one operation, as the routes implement it. -/
def applyMarcheOp (m : MarcheFin) : MarcheOp → MarcheFin
  | .importDPGF t => { m with montantInitialHT := t, montantActuelHT := t }
  | .addAvenant a =>
    let avenants := m.avenants ++ [a]
    { m with
      avenants := avenants
      montantActuelHT := m.montantInitialHT + avenants.sum }

/-- Applying a whole sequence of operations. -/
def applyMarcheOps (m : MarcheFin) (ops : List MarcheOp) : MarcheFin :=
  ops.foldl applyMarcheOp m

/-- The spec's contract-amount invariant: currentAmount = initialAmount
plus the sum of the contract's avenant amounts. -/
def invariantMontant (m : MarcheFin) : Prop :=
  m.montantActuelHT = m.montantInitialHT + m.avenants.sum

instance : DecidablePred invariantMontant := fun m =>
  inferInstanceAs (Decidable (m.montantActuelHT = m.montantInitialHT + m.avenants.sum))

/-!
Tender comparative evaluation (GET /consultations/:id/comparatif).
-/

/-- Bidder-invitation statuses (consultationEntreprise.statut). -/
inductive StatutCE
  | NON_ENVOYE
  | ENVOYE
  | LU
  | REPONDU
deriving DecidableEq, Repr

/-- A recorded bid (offreAO). -/
structure OffreAO where
  montantHT : ℚ
  delaiExecution : Option Nat
  noteTechnique : Option ℚ
deriving DecidableEq, Repr

/-- An invited bidder of a consultation. -/
structure ConsultationEntreprise where
  id : Nat
  statut : StatutCE
  offre : Option OffreAO
deriving DecidableEq, Repr

/-- A consultation with its three criteria weights. -/
structure Consultation where
  critPrix : ℚ
  critDelai : ℚ
  critTechnique : ℚ
  entreprisesConsultees : List ConsultationEntreprise
deriving DecidableEq, Repr

/-- The responded invitations that carry a bid: the route queries
entreprisesConsultees with statut REPONDU and then filters e.offre. -/
def offresRepondues (c : Consultation) : List (Nat × OffreAO) :=
  (c.entreprisesConsultees.filter (fun e => e.statut == .REPONDU)).filterMap
    (fun e => e.offre.map (fun o => (e.id, o)))

/-- JavaScript Math.round: round half upward. -/
def jsRound (q : ℚ) : ℤ :=
  ⌊q + 1 / 2⌋

/-- Math.min over a nonempty list (the empty default 0 is never used:
callers pass lists of length at least 2). -/
def listMin (l : List ℚ) : ℚ :=
  match l with
  | [] => 0
  | x :: xs => xs.foldl min x

/-- Math.max over a nonempty list. -/
def listMax (l : List ℚ) : ℚ :=
  match l with
  | [] => 0
  | x :: xs => xs.foldl max x

/-- The montantHT column of the responded bids. -/
def montantsOffres (c : Consultation) : List ℚ :=
  (offresRepondues c).map (fun o => o.2.montantHT)

/-- The delai column: delaiExecution || 0. -/
def delaisOffres (c : Consultation) : List Nat :=
  (offresRepondues c).map (fun o => o.2.delaiExecution.getD 0)

/-- minDelai = Math.min over the positive delays; the empty case is
JavaScript Infinity, modelled as none. -/
def minDelaiOffres (c : Consultation) : Option Nat :=
  match (delaisOffres c).filter (fun d => 0 < d) with
  | [] => none
  | x :: xs => some (xs.foldl min x)

/-- maxDelai = Math.max over the delays, with an all-zero column giving 1
(the JavaScript fallback value). -/
def maxDelaiOffres (c : Consultation) : Nat :=
  let mx := (delaisOffres c).foldl max 0
  if mx = 0 then 1 else mx

/-- notePrix: 100 when all prices coincide, else
round(((max − montant) / (max − min)) × 100). -/
def notePrixOf (minM maxM montant : ℚ) : ℤ :=
  if maxM = minM then 100
  else jsRound ((maxM - montant) / (maxM - minM) * 100)

/-- noteDelai: 50 when maxDelai equals minDelai or the bid has no (zero)
delay, else round(((maxDelai − delai) / (maxDelai − minDelai)) × 100).
The none (Infinity) minimum only occurs when every delay is zero, in
which case the delai = 0 test already selected 50. -/
def noteDelaiOf (minD : Option Nat) (maxD delai : Nat) : ℤ :=
  if minD = some maxD ∨ delai = 0 then 50
  else
    match minD with
    | none => 0
    | some mn => jsRound (((maxD : ℚ) - (delai : ℚ)) / ((maxD : ℚ) - (mn : ℚ)) * 100)

/-- noteTechnique with the JavaScript falsy default: unset or zero gives
the neutral 50. -/
def noteTechniqueOf (nt : Option ℚ) : ℚ :=
  match nt with
  | none => 50
  | some v => if v = 0 then 50 else v

/-- One scored row of the comparatif. -/
structure NoteOffre where
  entrepriseId : Nat
  montantHT : ℚ
  notePrix : ℤ
  noteDelai : ℤ
  noteTechnique : ℚ
  noteGlobale : ℤ
  ecartMoinsDisant : ℚ
  ecartPourcentage : ℚ
deriving DecidableEq, Repr

/-- The scored rows in bid order (before the descending sort). -/
def notesOffres (c : Consultation) : List NoteOffre :=
  let minM := listMin (montantsOffres c)
  let maxM := listMax (montantsOffres c)
  let minD := minDelaiOffres c
  let maxD := maxDelaiOffres c
  (offresRepondues c).map (fun o =>
    let montant := o.2.montantHT
    let delai := o.2.delaiExecution.getD 0
    let notePrix := notePrixOf minM maxM montant
    let noteDelai := noteDelaiOf minD maxD delai
    let noteTechnique := noteTechniqueOf o.2.noteTechnique
    let noteGlobale := jsRound
      ((notePrix : ℚ) * c.critPrix / 100 + (noteDelai : ℚ) * c.critDelai / 100 +
        noteTechnique * c.critTechnique / 100)
    { entrepriseId := o.1
      montantHT := montant
      notePrix := notePrix
      noteDelai := noteDelai
      noteTechnique := noteTechnique
      noteGlobale := noteGlobale
      ecartMoinsDisant := montant - minM
      ecartPourcentage := if 0 < minM then (montant - minM) / minM * 100 else 0 })

/-- Stable insertion of a row into a list sorted by noteGlobale
descending (rows with equal scores keep their relative order, matching
a stable sort with comparator b.noteGlobale − a.noteGlobale). -/
def insereDesc (x : NoteOffre) : List NoteOffre → List NoteOffre
  | [] => [x]
  | y :: ys => if y.noteGlobale < x.noteGlobale then x :: y :: ys else y :: insereDesc x ys

/-- Sort the scored rows by noteGlobale descending, keeping the input
order among equal scores. -/
def trieDesc (l : List NoteOffre) : List NoteOffre :=
  l.foldl (fun acc x => insereDesc x acc) []

/-- GET /consultations/:id/comparatif: fails with a validation error
unless at least two responded bids exist, otherwise returns the ranked
scores. -/
def comparatif (c : Consultation) : Except String (List NoteOffre) :=
  if (offresRepondues c).length < 2 then
    .error "Au moins 2 offres requises pour le comparatif"
  else .ok (trieDesc (notesOffres c))

/-!
DPGF import (services/dpgf-import.ts). The XLSX binary decoding is an
external library; the embedding starts at the grid of cell values that
sheet_to_json produces (cells modelled as strings, the form the claims
use; defval makes missing cells the empty string, which is also the
falsy case the code tests).
-/

/-- Substring test on character lists. -/
def sousChaineAux (pat : List Char) : List Char → Bool
  | [] => pat.isEmpty
  | c :: t => pat.isPrefixOf (c :: t) || sousChaineAux pat t

/-- Whether pat occurs inside the character list s (regex alternatives
are plain substring matches once case is folded). -/
def contientSous (s : List Char) (pat : String) : Bool :=
  sousChaineAux pat.toList s

/-- Whether the character list s ends with pat (a regex end anchor). -/
def finitPar (s : List Char) (pat : String) : Bool :=
  pat.toList.isSuffixOf s

/-- JavaScript String.prototype.trim: strip whitespace from both ends. -/
def trimL (l : List Char) : List Char :=
  ((l.dropWhile Char.isWhitespace).reverse.dropWhile Char.isWhitespace).reverse

/-- trim on a string cell. -/
def trimS (s : String) : String :=
  ⟨trimL s.toList⟩

/-- Recognise optional whitespace followed by "ht". -/
def espacesPuisHt : List Char → Bool
  | 'h' :: 't' :: _ => true
  | c :: t => c.isWhitespace && espacesPuisHt t
  | [] => false

/-- Occurrence of "mt", optional whitespace, "ht" (the mt\s*ht regex
alternative of the montant pattern). -/
def contientMtHtAux : List Char → Bool
  | 'm' :: 't' :: t => espacesPuisHt t || contientMtHtAux ('t' :: t)
  | _ :: t => contientMtHtAux t
  | [] => false

/-- ASCII lowercasing of a header cell (toLowerCase). -/
def minusculeL (l : List Char) : List Char :=
  l.map Char.toLower

/-- Header pattern for the numero column: n[°o]|num|ref|poste|article. -/
def patNumero (c : List Char) : Bool :=
  contientSous c "n°" || contientSous c "no" || contientSous c "num" ||
  contientSous c "ref" || contientSous c "poste" || contientSous c "article"

/-- Header pattern for designation: d[ée]sig|libell[ée]|description|intitul[ée]. -/
def patDesignation (c : List Char) : Bool :=
  contientSous c "désig" || contientSous c "desig" || contientSous c "libellé" ||
  contientSous c "libelle" || contientSous c "description" ||
  contientSous c "intitulé" || contientSous c "intitule"

/-- Header pattern for unite: unit[ée]|u\.|u$. -/
def patUnite (c : List Char) : Bool :=
  contientSous c "unité" || contientSous c "unite" || contientSous c "u." ||
  finitPar c "u"

/-- Header pattern for quantite: qt[ée]|quantit[ée]|qte|nb|nombre. -/
def patQuantite (c : List Char) : Bool :=
  contientSous c "qté" || contientSous c "qte" || contientSous c "quantité" ||
  contientSous c "quantite" || contientSous c "nb" || contientSous c "nombre"

/-- Header pattern for prixUnitaire: p\.?u\.?|prix\s*(unitaire)?|pu\s*ht,
equivalent to containing "pu", "p.u" or "prix". -/
def patPrixUnitaire (c : List Char) : Bool :=
  contientSous c "pu" || contientSous c "p.u" || contientSous c "prix"

/-- Header pattern for montant: montant|total|prix\s*total|mt\s*ht (the
prix-total alternative is subsumed by "total"). -/
def patMontant (c : List Char) : Bool :=
  contientSous c "montant" || contientSous c "total" || contientMtHtAux c

/-- Header pattern for chapitre: chapitre|chap|section. -/
def patChapitre (c : List Char) : Bool :=
  contientSous c "chapitre" || contientSous c "chap" || contientSous c "section"

/-- Header pattern for lot: lot|corps|ouvrage. -/
def patLot (c : List Char) : Bool :=
  contientSous c "lot" || contientSous c "corps" || contientSous c "ouvrage"

/-- A partial column mapping: only the detected or supplied indices. -/
structure DPGFMappingPartielle where
  numero : Option Nat := none
  designation : Option Nat := none
  unite : Option Nat := none
  quantite : Option Nat := none
  prixUnitaire : Option Nat := none
  montant : Option Nat := none
  chapitre : Option Nat := none
  lot : Option Nat := none
  headerRow : Option Nat := none
deriving DecidableEq, Repr

/-- A complete column mapping. -/
structure DPGFMapping where
  numero : Nat
  designation : Nat
  unite : Nat
  quantite : Nat
  prixUnitaire : Nat
  montant : Option Nat
  chapitre : Option Nat
  lot : Option Nat
  headerRow : Nat
deriving DecidableEq, Repr

/-- DEFAULT_MAPPING of the import service. -/
def defaultMapping : DPGFMapping :=
  { numero := 0, designation := 1, unite := 2, quantite := 3, prixUnitaire := 4,
    montant := some 5, chapitre := none, lot := none, headerRow := 0 }

/-- First-defined choice between two optional indices. -/
def ouSinon (a b : Option Nat) : Option Nat :=
  match a with
  | some v => some v
  | none => b

/-- Spread-merge of a partial mapping over the full default, as
Object.assign performs it: present keys override. -/
def fusionneMapping (d : DPGFMapping) (p : DPGFMappingPartielle) : DPGFMapping :=
  { numero := p.numero.getD d.numero
    designation := p.designation.getD d.designation
    unite := p.unite.getD d.unite
    quantite := p.quantite.getD d.quantite
    prixUnitaire := p.prixUnitaire.getD d.prixUnitaire
    montant := ouSinon p.montant d.montant
    chapitre := ouSinon p.chapitre d.chapitre
    lot := ouSinon p.lot d.lot
    headerRow := p.headerRow.getD d.headerRow }

/-- Matching one header cell against every still-unset field, fields in
the object-key order of the source patterns. -/
def detecteCellule (m : DPGFMappingPartielle) (i : Nat) (cell : String) : DPGFMappingPartielle :=
  let c := trimL (minusculeL cell.toList)
  { numero := ouSinon m.numero (if patNumero c then some i else none)
    designation := ouSinon m.designation (if patDesignation c then some i else none)
    unite := ouSinon m.unite (if patUnite c then some i else none)
    quantite := ouSinon m.quantite (if patQuantite c then some i else none)
    prixUnitaire := ouSinon m.prixUnitaire (if patPrixUnitaire c then some i else none)
    montant := ouSinon m.montant (if patMontant c then some i else none)
    chapitre := ouSinon m.chapitre (if patChapitre c then some i else none)
    lot := ouSinon m.lot (if patLot c then some i else none)
    headerRow := m.headerRow }

/-- detectMapping: match header cells left to right; the first matching
column wins for each field; an empty header gives null. -/
def detectMapping (header : List String) : Option DPGFMappingPartielle :=
  if header.isEmpty then none
  else some (header.enum.foldl (fun m ic => detecteCellule m ic.1 ic.2) {})

/-- The cleaning pipeline of parseNumber: drop whitespace, drop currency
symbols, turn the French decimal comma into a dot, then keep only
digits, dot and minus. -/
def nettoie (l : List Char) : List Char :=
  (((l.filter (fun c => !c.isWhitespace)).filter (fun c => c ≠ '€' && c ≠ '$')).map
    (fun c => if c = ',' then '.' else c)).filter
    (fun c => c.isDigit || c = '.' || c = '-')

/-- Decimal digits to a natural number. -/
def chiffresVersNat (l : List Char) : Nat :=
  l.foldl (fun a c => a * 10 + (c.toNat - '0'.toNat)) 0

/-- parseFloat on a cleaned string (only digits, dots and minus remain):
optional leading minus, integer digits, optional dot and fraction
digits; parsing stops at the first invalid character and no digits at
all is NaN, which the caller maps to 0. -/
def litFlottant (l : List Char) : ℚ :=
  let signeEtReste : Bool × List Char :=
    match l with
    | '-' :: t => (true, t)
    | t => (false, t)
  let entiers := signeEtReste.2.takeWhile Char.isDigit
  let reste := signeEtReste.2.drop entiers.length
  let fractions :=
    match reste with
    | '.' :: t => t.takeWhile Char.isDigit
    | _ => []
  if entiers.isEmpty && fractions.isEmpty then 0
  else
    let v : ℚ := (chiffresVersNat entiers : ℚ) +
      (chiffresVersNat fractions : ℚ) / ((10 : ℚ) ^ fractions.length)
    if signeEtReste.1 then -v else v

/-- parseNumber on a string cell: empty is 0, otherwise clean and parse,
with unparseable values becoming 0. -/
def parseNumber (v : String) : ℚ :=
  if v = "" then 0 else litFlottant (nettoie v.toList)

/-- A parsed bid-schedule line as the import service returns it. -/
structure LigneDPGFImport where
  numero : String
  designation : String
  unite : String
  quantite : ℚ
  prixUnitaireHT : ℚ
  montantHT : ℚ
  chapitre : Option String := none
  lot : Option String := none
deriving DecidableEq, Repr

/-- The import result. The mismatch warnings are modelled by the 1-based
data-row numbers they cite (the French message text is elided). -/
structure DPGFImportResult where
  success : Bool
  lignes : List LigneDPGFImport
  totalHT : ℚ
  errors : List String
  warnings : List Nat
deriving DecidableEq, Repr

/-- row[i] with the falsy-to-empty fallback of row[...] || before String(). -/
def celluleLigne (row : List String) (i : Nat) : String :=
  row.getD i ""

/-- One data row: blank rows and rows without a designation are skipped;
otherwise extract the cells, take the montant column when mapped and
non-empty or compute quantite × prixUnitaire, and flag a warning when an
explicit positive montant differs from the product by more than 0.01.
compte is the number of lines already produced (numero fallback). -/
def traiteLigne (m : DPGFMapping) (compte : Nat) (row : List String) :
    Option (LigneDPGFImport × Bool) :=
  if row.all (fun cell => cell == "") then none
  else
    let numero := trimS (celluleLigne row m.numero)
    let designation := trimS (celluleLigne row m.designation)
    let unite := trimS (celluleLigne row m.unite)
    let quantite := parseNumber (celluleLigne row m.quantite)
    let prixUnitaire := parseNumber (celluleLigne row m.prixUnitaire)
    if designation = "" then none
    else
      let montant :=
        match m.montant with
        | some im =>
          if celluleLigne row im ≠ "" then parseNumber (celluleLigne row im)
          else quantite * prixUnitaire
        | none => quantite * prixUnitaire
      let calcule := quantite * prixUnitaire
      let avert := decide (0 < montant ∧ (1 / 100 : ℚ) < |montant - calcule|)
      some
        ({ numero := if numero = "" then toString (compte + 1) else numero
           designation := designation
           unite := if unite = "" then "U" else unite
           quantite := quantite
           prixUnitaireHT := prixUnitaire
           montantHT := if montant = 0 then calcule else montant
           chapitre :=
             match m.chapitre with
             | some ic =>
               if celluleLigne row ic ≠ "" then some (trimS (celluleLigne row ic)) else none
             | none => none
           lot :=
             match m.lot with
             | some il =>
               if celluleLigne row il ≠ "" then some (trimS (celluleLigne row il)) else none
             | none => none }, avert)

/-- The data-row loop: i is the absolute row index inside the grid (the
warning cites i+1), compte the number of lines produced so far. -/
def traiteToutes (m : DPGFMapping) : List (List String) → Nat → Nat →
    List LigneDPGFImport × List Nat
  | [], _, _ => ([], [])
  | row :: rest, i, compte =>
    match traiteLigne m compte row with
    | none => traiteToutes m rest (i + 1) compte
    | some (l, avert) =>
      let suite := traiteToutes m rest (i + 1) (compte + 1)
      (l :: suite.1, (if avert then [i + 1] else []) ++ suite.2)

/-- parseDPGFFile from the decoded grid on: fewer than two rows fail;
the mapping is the default overlaid with the supplied one, or with the
auto-detected one when none is supplied; rows after the header are
parsed; zero valid lines is a validation error, otherwise success with
the line list, total and warnings. -/
def parseDPGFGrid (data : List (List String)) (mapping : Option DPGFMappingPartielle) :
    DPGFImportResult :=
  if data.length < 2 then
    { success := false, lignes := [], totalHT := 0,
      errors := ["Le fichier ne contient pas assez de données (minimum 2 lignes)"],
      warnings := [] }
  else
    let final :=
      match mapping with
      | some pm => fusionneMapping defaultMapping pm
      | none =>
        match detectMapping (data.getD defaultMapping.headerRow []) with
        | some det => fusionneMapping defaultMapping det
        | none => defaultMapping
    let res := traiteToutes final (data.drop (final.headerRow + 1)) (final.headerRow + 1) 0
    let totalHT := (res.1.map (fun l => l.montantHT)).sum
    if res.1.isEmpty then
      { success := false, lignes := res.1, totalHT := totalHT,
        errors := ["Aucune ligne valide trouvée dans le fichier"], warnings := res.2 }
    else
      { success := true, lignes := res.1, totalHT := totalHT, errors := [],
        warnings := res.2 }

/-!
Concrete sample data used to instantiate the theorems.
-/

/-- A sample certificate numbered 2 in a given status, with one line
entry and no validation history. -/
def exSituation (st : StatutSituation) : Situation :=
  { numero := 2, statut := st, montantTravaux := 200, montantCumule := 200,
    retenueGarantie := 10, acomptePrecedent := 0, montantNetHT := 190,
    montantTTC := 228,
    lignes := [{ ligneDPGFId := 7, quantiteMois := 4, quantiteCumul := 4,
                 montantMois := 200, montantCumul := 200 }],
    validations := [] }

/-- A sample contract with one DPGF line and one earlier submitted
certificate. -/
def exMarche : Marche :=
  { tauxRG := 5, montantInitialHT := 5000, montantActuelHT := 5000,
    lignesDPGF := [{ id := 7, numero := "1", designation := "Terrassement", unite := "m3",
                     quantite := 100, prixUnitaireHT := 50, montantHT := 5000 }],
    situations := [{ numero := 1, statut := .SOUMISE, montantTravaux := 200,
                     montantCumule := 200, retenueGarantie := 10, acomptePrecedent := 0,
                     montantNetHT := 190, montantTTC := 228,
                     lignes := [{ ligneDPGFId := 7, quantiteMois := 4, quantiteCumul := 4,
                                  montantMois := 200, montantCumul := 200 }],
                     validations := [] }] }

/-- A bid at a given price with no delay and no technical score. -/
def exOffre (prix : ℚ) : OffreAO :=
  { montantHT := prix, delaiExecution := none, noteTechnique := none }

/-- A consultation with default weights 60/20/20 and three responded
bids priced 100, 150 and 200. -/
def exConsultation3 : Consultation :=
  { critPrix := 60, critDelai := 20, critTechnique := 20,
    entreprisesConsultees :=
      [ { id := 1, statut := .REPONDU, offre := some (exOffre 100) },
        { id := 2, statut := .REPONDU, offre := some (exOffre 150) },
        { id := 3, statut := .REPONDU, offre := some (exOffre 200) } ] }

/-- A consultation with a single responded bid. -/
def exConsultation1 : Consultation :=
  { critPrix := 60, critDelai := 20, critTechnique := 20,
    entreprisesConsultees := [ { id := 1, statut := .REPONDU, offre := some (exOffre 100) } ] }

/-- A consultation with two responded bids at the same price. -/
def exConsultationEgale : Consultation :=
  { critPrix := 60, critDelai := 20, critTechnique := 20,
    entreprisesConsultees :=
      [ { id := 1, statut := .REPONDU, offre := some (exOffre 100) },
        { id := 2, statut := .REPONDU, offre := some (exOffre 100) } ] }


/-!
Theorems.
-/

theorem processLignes_pairs (L : List LigneDPGF) (cumul : Nat → ℚ) (pairs : List (Nat × ℚ)) :
    (processLignes L cumul pairs).map (fun l => (l.ligneDPGFId, l.quantiteMois)) =
      pairs.filter (fun p => (L.find? (fun lg => lg.id == p.1)).isSome) := by
  induction pairs with
  | nil => rfl
  | cons p rest ih =>
    obtain ⟨lid, q⟩ := p
    cases hf : L.find? (fun lg => lg.id == lid) <;>
      simp [processLignes, hf, ih]

theorem processLignes_mem (L : List LigneDPGF) (cumul : Nat → ℚ) (pairs : List (Nat × ℚ)) :
    ∀ l ∈ processLignes L cumul pairs,
      ∃ lg, L.find? (fun x => x.id == l.ligneDPGFId) = some lg ∧
        l.quantiteCumul = cumul l.ligneDPGFId + l.quantiteMois ∧
        l.montantMois = l.quantiteMois * lg.prixUnitaireHT ∧
        l.montantCumul = l.quantiteCumul * lg.prixUnitaireHT := by
  induction pairs with
  | nil => intro l hl; simp [processLignes] at hl
  | cons p rest ih =>
    obtain ⟨lid, q⟩ := p
    intro l hl
    cases hf : L.find? (fun lg => lg.id == lid) with
    | none =>
      rw [processLignes, hf] at hl
      exact ih l hl
    | some lm =>
      rw [processLignes, hf] at hl
      rcases List.mem_cons.mp hl with h | h
      · subst h
        exact ⟨lm, hf, rfl, rfl, rfl⟩
      · exact ih l h

/-- C1: saving line-entries on a DRAFT certificate recomputes a recap in
which retention = cumulativeAmount × retentionRate / 100, previousAdvance
is the sum of monthAmount over the earlier non-draft certificates of the
contract, netAmount = cumulativeAmount − retention − previousAdvance,
and totalAmount = netAmount × (1 + 20/100), 20% being the standard rate
this recomputation always applies. -/
theorem saveLignes_recap_equations (m : Marche) (s : Situation) (pairs : List (Nat × ℚ))
    (h : s.statut = .BROUILLON) :
    ∃ r, saveLignesSituation m s pairs = .ok r ∧
      r.retenueGarantie = r.montantCumule * m.tauxRG / 100 ∧
      r.acomptePrecedent =
        ((situationsPrecedentes m.situations s.numero).map (fun p => p.montantTravaux)).sum ∧
      r.montantNetHT = r.montantCumule - r.retenueGarantie - r.acomptePrecedent ∧
      r.montantTTC = r.montantNetHT * (1 + 20 / 100) := by
  rw [saveLignesSituation, if_neg (by simp [h])]
  refine ⟨_, rfl, ?_, ?_, ?_, ?_⟩
  · simp [mul_div_assoc]
  · simp
  · simp
  · norm_num

/-- Witness for C1 at a concrete contract, draft certificate and input. -/
theorem saveLignes_recap_equations_witness :
    ∃ r, saveLignesSituation exMarche (exSituation .BROUILLON) [(7, 6)] = .ok r ∧
      r.retenueGarantie = r.montantCumule * exMarche.tauxRG / 100 ∧
      r.acomptePrecedent =
        ((situationsPrecedentes exMarche.situations (exSituation .BROUILLON).numero).map
          (fun p => p.montantTravaux)).sum ∧
      r.montantNetHT = r.montantCumule - r.retenueGarantie - r.acomptePrecedent ∧
      r.montantTTC = r.montantNetHT * (1 + 20 / 100) :=
  saveLignes_recap_equations exMarche (exSituation .BROUILLON) [(7, 6)] rfl

/-- C2: saving line-entries is rejected with a state-conflict error
unless the certificate is DRAFT; when it is, the stored entries are
exactly the submitted pairs whose line exists in the contract schedule,
each entry has cumulativeQuantity = prior non-draft cumulative +
monthlyQuantity, monthlyAmount = monthlyQuantity × unit price and
cumulativeAmount = cumulativeQuantity × unit price, and the certificate
totals are the sums of the entries' monthly and cumulative amounts. -/
theorem saveLignes_entries_spec (m : Marche) (s : Situation) (pairs : List (Nat × ℚ)) :
    (s.statut ≠ .BROUILLON → saveLignesSituation m s pairs = .error "Situation non modifiable") ∧
    (s.statut = .BROUILLON → ∃ r, saveLignesSituation m s pairs = .ok r ∧
      r.lignes.map (fun l => (l.ligneDPGFId, l.quantiteMois)) =
        pairs.filter (fun p => (m.lignesDPGF.find? (fun lg => lg.id == p.1)).isSome) ∧
      (∀ l ∈ r.lignes,
        ∃ lg, m.lignesDPGF.find? (fun x => x.id == l.ligneDPGFId) = some lg ∧
          l.quantiteCumul =
            cumulsParLigne (situationsPrecedentes m.situations s.numero) l.ligneDPGFId +
              l.quantiteMois ∧
          l.montantMois = l.quantiteMois * lg.prixUnitaireHT ∧
          l.montantCumul = l.quantiteCumul * lg.prixUnitaireHT) ∧
      r.montantTravaux = (r.lignes.map (fun l => l.montantMois)).sum ∧
      r.montantCumule = (r.lignes.map (fun l => l.montantCumul)).sum) := by
  constructor
  · intro h
    rw [saveLignesSituation, if_pos h]
  · intro h
    rw [saveLignesSituation, if_neg (by simp [h])]
    exact ⟨_, rfl, processLignes_pairs _ _ _, processLignes_mem _ _ _, rfl, rfl⟩

/-- Witness for C2: the error branch on a submitted certificate and the
success branch on a draft one, at concrete inputs. -/
theorem saveLignes_entries_spec_witness :
    saveLignesSituation exMarche (exSituation .SOUMISE) [(7, 6)] =
      .error "Situation non modifiable" ∧
    ∃ r, saveLignesSituation exMarche (exSituation .BROUILLON) [(7, 6)] = .ok r ∧
      r.lignes.map (fun l => (l.ligneDPGFId, l.quantiteMois)) =
        [(7, 6)].filter
          (fun p => (exMarche.lignesDPGF.find? (fun lg => lg.id == p.1)).isSome) ∧
      (∀ l ∈ r.lignes,
        ∃ lg, exMarche.lignesDPGF.find? (fun x => x.id == l.ligneDPGFId) = some lg ∧
          l.quantiteCumul =
            cumulsParLigne
              (situationsPrecedentes exMarche.situations (exSituation .BROUILLON).numero)
              l.ligneDPGFId + l.quantiteMois ∧
          l.montantMois = l.quantiteMois * lg.prixUnitaireHT ∧
          l.montantCumul = l.quantiteCumul * lg.prixUnitaireHT) ∧
      r.montantTravaux = (r.lignes.map (fun l => l.montantMois)).sum ∧
      r.montantCumule = (r.lignes.map (fun l => l.montantCumul)).sum :=
  ⟨(saveLignes_entries_spec exMarche (exSituation .SOUMISE) [(7, 6)]).1 (by decide),
   (saveLignes_entries_spec exMarche (exSituation .BROUILLON) [(7, 6)]).2 rfl⟩

/-- C3 counterexample: creating a certificate, deleting it, and creating
again reassigns the same sequence number 1, so the assigned numbers are
neither strictly increasing nor free of reuse. -/
theorem numerotation_reutilisee_apres_suppression :
    assignedNumeros [] [.createSit, .deleteSit 1, .createSit] = [1, 1] ∧
    ¬ (assignedNumeros [] [.createSit, .deleteSit 1, .createSit]).Nodup ∧
    ¬ List.Chain' (fun a b => a < b)
        (assignedNumeros [] [.createSit, .deleteSit 1, .createSit]) := by
  have h : assignedNumeros [] [.createSit, .deleteSit 1, .createSit] = [1, 1] := rfl
  rw [h]
  refine ⟨rfl, by decide, fun hc => lt_irrefl 1 (List.chain'_cons.mp hc).1⟩

theorem le_foldl_max_init (l : List Nat) (a : Nat) : a ≤ l.foldl max a := by
  induction l generalizing a with
  | nil => exact le_refl a
  | cons x xs ih => exact le_trans (le_max_left a x) (ih (max a x))

theorem mem_le_foldl_max (l : List Nat) (a x : Nat) (hx : x ∈ l) : x ≤ l.foldl max a := by
  induction l generalizing a with
  | nil => cases hx
  | cons y ys ih =>
    rcases List.mem_cons.mp hx with h | h
    · subst h
      exact le_trans (le_max_right a x) (le_foldl_max_init ys (max a x))
    · exact ih _ h

theorem lt_nextNumero (st : List Nat) (x : Nat) (hx : x ∈ st) : x < nextNumero st :=
  Nat.lt_succ_of_le (mem_le_foldl_max st 0 x hx)

theorem assigned_creates_aux (ops : List SitOp) (hops : ∀ op ∈ ops, op.isCreate = true) :
    ∀ st : List Nat, List.Chain' (fun a b => a < b) (assignedNumeros st ops) ∧
      ∀ n ∈ assignedNumeros st ops, ∀ x ∈ st, x < n := by
  induction ops with
  | nil => intro st; simp [assignedNumeros]
  | cons op rest ih =>
    intro st
    have hop : op.isCreate = true := hops op (List.mem_cons_self op rest)
    cases op with
    | deleteSit n => simp [SitOp.isCreate] at hop
    | createSit =>
      have hrest : ∀ o ∈ rest, o.isCreate = true := fun o ho =>
        hops o (List.mem_cons_of_mem _ ho)
      obtain ⟨hchain, hgt⟩ := ih hrest (st ++ [nextNumero st])
      rw [assignedNumeros]
      constructor
      · refine List.chain'_cons'.mpr ⟨?_, hchain⟩
        intro y hy
        have hmem : y ∈ assignedNumeros (applySitOp st .createSit) rest :=
          List.mem_of_mem_head? hy
        exact hgt y hmem (nextNumero st) (by simp [applySitOp])
      · intro n hn x hx
        rcases List.mem_cons.mp hn with h | h
        · subst h
          exact lt_nextNumero st x hx
        · exact hgt n h x (by simp [applySitOp, hx])

/-- C3 amended: as long as no certificate is deleted, the sequence
numbers handed out in creation order are strictly increasing, pairwise
distinct, and strictly greater than every number already live, so no
number is ever reused; deleting the highest-numbered certificate,
however, lets its number be reassigned (previous theorem). -/
theorem numerotation_croissante_sans_suppression (st : List Nat) (ops : List SitOp)
    (hops : ∀ op ∈ ops, op.isCreate = true) :
    List.Chain' (fun a b => a < b) (assignedNumeros st ops) ∧
    (assignedNumeros st ops).Nodup ∧
    ∀ n ∈ assignedNumeros st ops, n ∉ st := by
  obtain ⟨hchain, hgt⟩ := assigned_creates_aux ops hops st
  refine ⟨hchain, ?_, ?_⟩
  · exact List.Pairwise.imp Nat.ne_of_lt (List.chain'_iff_pairwise.mp hchain)
  · intro n hn hmem
    exact lt_irrefl n (hgt n hn n hmem)

/-- Witness for the amended C3 at a concrete creation-only trace. -/
theorem numerotation_croissante_sans_suppression_witness :
    List.Chain' (fun a b => a < b)
      (assignedNumeros [3] [.createSit, .createSit, .createSit]) ∧
    (assignedNumeros [3] [.createSit, .createSit, .createSit]).Nodup ∧
    ∀ n ∈ assignedNumeros [3] [.createSit, .createSit, .createSit], n ∉ [3] :=
  numerotation_croissante_sans_suppression [3] [.createSit, .createSit, .createSit]
    (by decide)

unseal Rat.add Rat.mul Rat.sub Rat.inv in
/-- C4 counterexample: on a fresh contract, adding an avenant of 100 and
then importing a schedule totalling 500 leaves currentAmount = 500 while
initialAmount + Σ avenants = 600 (the import resets both amounts but
keeps the avenant rows), refuting the invariant for arbitrary operation
sequences. -/
theorem montant_invariant_casse_par_import :
    applyMarcheOps { montantInitialHT := 0, montantActuelHT := 0, avenants := [] }
        [.addAvenant 100, .importDPGF 500] =
      { montantInitialHT := 500, montantActuelHT := 500, avenants := [100] } ∧
    ¬ invariantMontant
        (applyMarcheOps { montantInitialHT := 0, montantActuelHT := 0, avenants := [] }
          [.addAvenant 100, .importDPGF 500]) := by
  refine ⟨rfl, by decide⟩

theorem imports_gardent_etat (ops : List MarcheOp) (hops : ∀ op ∈ ops, op.isImport = true) :
    ∀ m : MarcheFin, m.avenants = [] → m.montantActuelHT = m.montantInitialHT →
      (applyMarcheOps m ops).avenants = [] ∧
        (applyMarcheOps m ops).montantActuelHT = (applyMarcheOps m ops).montantInitialHT := by
  induction ops with
  | nil => intro m h1 h2; exact ⟨h1, h2⟩
  | cons op rest ih =>
    intro m h1 h2
    have hop : op.isImport = true := hops op (List.mem_cons_self op rest)
    have hrest : ∀ o ∈ rest, o.isImport = true := fun o ho =>
      hops o (List.mem_cons_of_mem _ ho)
    cases op with
    | addAvenant a => simp [MarcheOp.isImport] at hop
    | importDPGF t =>
      have := ih hrest { m with montantInitialHT := t, montantActuelHT := t }
      simp only [applyMarcheOps, List.foldl_cons, applyMarcheOp]
      exact this h1 rfl

theorem applyMarcheOps_append (m : MarcheFin) (l1 l2 : List MarcheOp) :
    applyMarcheOps m (l1 ++ l2) = applyMarcheOps (applyMarcheOps m l1) l2 := by
  simp [applyMarcheOps, List.foldl_append]

theorem avenants_gardent_invariant (ops : List MarcheOp)
    (hops : ∀ op ∈ ops, op.isAvenant = true) :
    ∀ m : MarcheFin, invariantMontant m → invariantMontant (applyMarcheOps m ops) := by
  induction ops with
  | nil => intro m h; exact h
  | cons op rest ih =>
    intro m h
    have hop : op.isAvenant = true := hops op (List.mem_cons_self op rest)
    have hrest : ∀ o ∈ rest, o.isAvenant = true := fun o ho =>
      hops o (List.mem_cons_of_mem _ ho)
    cases op with
    | importDPGF t => simp [MarcheOp.isAvenant] at hop
    | addAvenant a =>
      simp only [applyMarcheOps, List.foldl_cons]
      refine ih hrest _ ?_
      rw [invariantMontant]
      rfl

/-- C4 amended: starting from a freshly created contract (no avenants,
currentAmount = initialAmount), currentAmount = initialAmount + Σ
avenant amounts holds after any operation sequence in which every
schedule import precedes every avenant addition; an import performed
after an avenant breaks the equation (previous theorem), since importing
resets both amounts to the imported total while keeping the avenants. -/
theorem montant_invariant_imports_puis_avenants (init : ℚ) (opsI opsA : List MarcheOp)
    (hI : ∀ op ∈ opsI, op.isImport = true) (hA : ∀ op ∈ opsA, op.isAvenant = true) :
    invariantMontant
      (applyMarcheOps { montantInitialHT := init, montantActuelHT := init, avenants := [] }
        (opsI ++ opsA)) := by
  rw [applyMarcheOps_append]
  obtain ⟨h1, h2⟩ := imports_gardent_etat opsI hI
    { montantInitialHT := init, montantActuelHT := init, avenants := [] } rfl rfl
  refine avenants_gardent_invariant opsA hA _ ?_
  rw [invariantMontant, h1, h2]
  simp

/-- Witness for the amended C4 at a concrete operation sequence. -/
theorem montant_invariant_imports_puis_avenants_witness :
    invariantMontant
      (applyMarcheOps { montantInitialHT := 0, montantActuelHT := 0, avenants := [] }
        ([.importDPGF 500] ++ [.addAvenant 100, .addAvenant (-50)])) :=
  montant_invariant_imports_puis_avenants 0 [.importDPGF 500]
    [.addAvenant 100, .addAvenant (-50)] (by decide) (by decide)

/-- C5: the workflow transitions are guarded — submit succeeds exactly
from DRAFT (BROUILLON), MOE approval exactly from SUBMITTED (SOUMISE),
MOA approval exactly from MOE_APPROVED (VALIDEE_MOE); in particular
submitting an already submitted certificate and MOA-approving a draft
both fail with the state-conflict error. -/
theorem workflow_transitions_gardees (s : Situation) (uid : Nat) (comm : Option String) :
    (isOkE (soumettre s) = (s.statut == .BROUILLON)) ∧
    (isOkE (valider s .MOE uid comm) = (s.statut == .SOUMISE)) ∧
    (isOkE (valider s .MOA uid comm) = (s.statut == .VALIDEE_MOE)) ∧
    (s.statut = .SOUMISE → soumettre s = .error "Situation déjà soumise") ∧
    (s.statut = .BROUILLON →
      valider s .MOA uid comm = .error
        "La situation doit être validée MOE avant validation MOA") := by
  cases h : s.statut <;>
    simp [soumettre, valider, isOkE, h]

/-- Witness for C5: a submitted certificate cannot be resubmitted and a
draft certificate cannot receive MOA approval. -/
theorem workflow_transitions_gardees_witness :
    soumettre (exSituation .SOUMISE) = .error "Situation déjà soumise" ∧
    valider (exSituation .BROUILLON) .MOA 1 none = .error
      "La situation doit être validée MOE avant validation MOA" :=
  ⟨(workflow_transitions_gardees (exSituation .SOUMISE) 1 none).2.2.2.1 rfl,
   (workflow_transitions_gardees (exSituation .BROUILLON) 1 none).2.2.2.2 rfl⟩

/-- C6: at the SUBMITTED or MOE_APPROVED stage, rejecting requires a
reason (a missing or empty motif fails), and with a reason it appends a
validation record with outcome REFUSE carrying that reason, returns the
certificate to DRAFT, and leaves its line-entries untouched. -/
theorem refus_enregistre_et_retour_brouillon (s : Situation) (ty : TypeValidation)
    (uid : Nat) (_h : s.statut = .SOUMISE ∨ s.statut = .VALIDEE_MOE) :
    refuser s ty uid none = .error "Motif de refus requis" ∧
    refuser s ty uid (some "") = .error "Motif de refus requis" ∧
    ∀ motif : String, motif ≠ "" →
      ∃ r, refuser s ty uid (some motif) = .ok r ∧
        r.statut = .BROUILLON ∧
        r.validations = s.validations ++
          [{ type := ty, statut := .REFUSE, commentaire := some motif, userId := uid }] ∧
        r.lignes = s.lignes := by
  refine ⟨rfl, rfl, ?_⟩
  intro motif hm
  rw [refuser, if_neg hm]
  exact ⟨_, rfl, rfl, rfl, rfl⟩

/-- Witness for C6 on a concrete submitted certificate. -/
theorem refus_enregistre_et_retour_brouillon_witness :
    refuser (exSituation .SOUMISE) .MOE 1 none = .error "Motif de refus requis" ∧
    refuser (exSituation .SOUMISE) .MOE 1 (some "") = .error "Motif de refus requis" ∧
    ∀ motif : String, motif ≠ "" →
      ∃ r, refuser (exSituation .SOUMISE) .MOE 1 (some motif) = .ok r ∧
        r.statut = .BROUILLON ∧
        r.validations = (exSituation .SOUMISE).validations ++
          [{ type := .MOE, statut := .REFUSE, commentaire := some motif, userId := 1 }] ∧
        r.lignes = (exSituation .SOUMISE).lignes :=
  refus_enregistre_et_retour_brouillon (exSituation .SOUMISE) .MOE 1 (Or.inl rfl)

/-- C10 (implicit): the reject operation has no status guard at all — on
a certificate of any status, including DRAFT and the terminal
MOA_APPROVED, a non-empty reason makes it succeed, append a REFUSE
record and set the status to DRAFT; only a missing or empty reason makes
it fail. -/
theorem refus_sans_garde_de_statut (s : Situation) (ty : TypeValidation) (uid : Nat) :
    (∀ motif : String, motif ≠ "" →
      ∃ r, refuser s ty uid (some motif) = .ok r ∧
        r.statut = .BROUILLON ∧
        r.validations = s.validations ++
          [{ type := ty, statut := .REFUSE, commentaire := some motif, userId := uid }] ∧
        r.lignes = s.lignes) ∧
    refuser s ty uid none = .error "Motif de refus requis" ∧
    refuser s ty uid (some "") = .error "Motif de refus requis" := by
  refine ⟨?_, rfl, rfl⟩
  intro motif hm
  rw [refuser, if_neg hm]
  exact ⟨_, rfl, rfl, rfl, rfl⟩

/-- Witness for C10: rejecting a DRAFT certificate and a terminal
MOA-approved certificate both succeed with a non-empty reason. -/
theorem refus_sans_garde_de_statut_witness :
    (∃ r, refuser (exSituation .VALIDEE_MOA) .MOA 1 (some "erreur") = .ok r ∧
      r.statut = .BROUILLON ∧
      r.validations = (exSituation .VALIDEE_MOA).validations ++
        [{ type := .MOA, statut := .REFUSE, commentaire := some "erreur", userId := 1 }] ∧
      r.lignes = (exSituation .VALIDEE_MOA).lignes) ∧
    (∃ r, refuser (exSituation .BROUILLON) .MOE 1 (some "erreur") = .ok r ∧
      r.statut = .BROUILLON ∧
      r.validations = (exSituation .BROUILLON).validations ++
        [{ type := .MOE, statut := .REFUSE, commentaire := some "erreur", userId := 1 }] ∧
      r.lignes = (exSituation .BROUILLON).lignes) :=
  ⟨(refus_sans_garde_de_statut (exSituation .VALIDEE_MOA) .MOA 1).1 "erreur" (by decide),
   (refus_sans_garde_de_statut (exSituation .BROUILLON) .MOE 1).1 "erreur" (by decide)⟩

/-- C7: the comparative evaluation succeeds exactly when at least two
responded invitations carry a bid; with fewer it fails with the
insufficient-bids validation error and no ranking is produced. -/
theorem comparatif_precondition_deux_offres (c : Consultation) :
    ((∃ r, comparatif c = .ok r) ↔ 2 ≤ (offresRepondues c).length) ∧
    ((offresRepondues c).length < 2 →
      comparatif c = .error "Au moins 2 offres requises pour le comparatif") := by
  rw [comparatif]
  by_cases h : (offresRepondues c).length < 2
  · rw [if_pos h]
    refine ⟨⟨fun he => ?_, fun h2 => absurd h2 (by omega)⟩, fun _ => rfl⟩
    obtain ⟨r, hr⟩ := he
    exact Except.noConfusion hr
  · rw [if_neg h]
    exact ⟨⟨fun _ => by omega, fun _ => ⟨_, rfl⟩⟩, fun h2 => absurd h2 h⟩

/-- Witness for C7: a single-bid consultation is rejected. -/
theorem comparatif_precondition_deux_offres_witness :
    comparatif exConsultation1 = .error "Au moins 2 offres requises pour le comparatif" :=
  (comparatif_precondition_deux_offres exConsultation1).2 (by decide)

unseal Rat.add Rat.mul Rat.sub Rat.inv in
/-- C8: in a computed comparison, notePrix is 100 whenever the maximum
price equals the minimum price across the responded bids, and otherwise
round(100 × (maxPrice − price) / (maxPrice − minPrice)); on bids priced
100, 150 and 200 the price scores are 100, 50 and 0. -/
theorem notePrix_formule :
    (∀ c : Consultation, listMax (montantsOffres c) = listMin (montantsOffres c) →
      ∀ e ∈ notesOffres c, e.notePrix = 100) ∧
    (∀ c : Consultation, listMax (montantsOffres c) ≠ listMin (montantsOffres c) →
      ∀ e ∈ notesOffres c,
        e.notePrix = jsRound (100 * (listMax (montantsOffres c) - e.montantHT) /
          (listMax (montantsOffres c) - listMin (montantsOffres c)))) ∧
    (notesOffres exConsultation3).map (fun e => (e.montantHT, e.notePrix)) =
      [(100, 100), (150, 50), (200, 0)] := by
  refine ⟨?_, ?_, ?_⟩
  · intro c hmm e he
    obtain ⟨o, _, rfl⟩ := List.mem_map.mp he
    simp only [notePrixOf, hmm, if_pos]
  · intro c hmm e he
    obtain ⟨o, _, rfl⟩ := List.mem_map.mp he
    simp only [notePrixOf, hmm, if_neg]
    exact congrArg jsRound (by ring)
  · decide

unseal Rat.add Rat.mul Rat.sub Rat.inv in
/-- Witness for C8: equal prices give every bid notePrix 100, and on the
100/150/200 consultation the general formula applies. -/
theorem notePrix_formule_witness :
    (∀ e ∈ notesOffres exConsultationEgale, e.notePrix = 100) ∧
    (∀ e ∈ notesOffres exConsultation3,
      e.notePrix = jsRound (100 * (listMax (montantsOffres exConsultation3) - e.montantHT) /
        (listMax (montantsOffres exConsultation3) - listMin (montantsOffres exConsultation3)))) :=
  ⟨notePrix_formule.1 exConsultationEgale (by decide),
   notePrix_formule.2.1 exConsultation3 (by decide)⟩

unseal Rat.add Rat.mul Rat.sub Rat.inv in
/-- C9: with no explicit mapping, the header row N° / Désignation / U /
Qté / PU HT / Montant auto-detects all six columns, and the single data
row 1 / Terrassement / m3 / 10 / 50 / 500 imports successfully into
exactly one line of amount 500, total 500, with no error and no
warning. -/
theorem import_exemple_auto_detection :
    detectMapping ["N°", "Désignation", "U", "Qté", "PU HT", "Montant"] =
      some { numero := some 0, designation := some 1, unite := some 2, quantite := some 3,
             prixUnitaire := some 4, montant := some 5, chapitre := none, lot := none,
             headerRow := none } ∧
    parseDPGFGrid
        [["N°", "Désignation", "U", "Qté", "PU HT", "Montant"],
         ["1", "Terrassement", "m3", "10", "50", "500"]] none =
      { success := true,
        lignes := [{ numero := "1", designation := "Terrassement", unite := "m3",
                     quantite := 10, prixUnitaireHT := 50, montantHT := 500,
                     chapitre := none, lot := none }],
        totalHT := 500, errors := [], warnings := [] } := by
  constructor
  · decide
  · decide
